import Mathlib

/-!
Shallow embedding of the training-loop cell of `demo.ipynb` (repository
garranz/smile-mi-estimator).

The notebook cell defines the module-level configuration `dim` and `device`,
the dictionaries `CRITICS` and `BASELINES`, and the function `train_estimator`
with its inner function `train_step`.  Those are embedded below as executable
Lean functions.  Python dictionary lookups that can fail become `Except` with
a `keyError`; Python object construction is modelled with an allocation
counter so that object identity ("the same critic object", "a fresh critic")
is observable; optimizer-driven parameter mutation is modelled with version
counters on the critic's and the baseline's parameter sets.

The functions `sample_correlated_gaussian`, `mi_schedule`, `mi_to_rho` (from
`utils`) and `estimate_mutual_information` (from `estimators`) are code of the
repository that is not under src/; they are modelled from the spec where their
behaviour matters (the estimator-name key lookup) and otherwise abstracted:
`mi_schedule` / `mi_to_rho` are taken as function parameters, and the numeric
value an estimator formula produces is abstracted into a parameter `estVal`.
Scalar tensor values are represented by `Int` (their numeric content is
computed by the external framework and plays no role in the claims).
-/

/-- Python exceptions surfaced by the embedded fragment: `KeyError` from a
dictionary lookup with the offending key, `IndexError` from sequence
indexing. -/
inductive PyErr where
  | keyError (key : String)
  | indexError
  deriving Repr, DecidableEq

/-- The `critic_params` dict of the notebook: architecture hyperparameters.
They configure the critic networks built by `CRITICS[...]` constructors and do
not influence the control flow of `train_estimator`; they are carried
opaquely on the constructed critic. -/
structure CriticParams where
  dim : Nat
  layers : Nat
  embed_dim : Nat
  hidden_dim : Nat
  activation : String
  deriving Repr, DecidableEq, Inhabited

/-- The `data_params` dict: keys `dim`, `batch_size`, `cubic` (the demo passes
`'cubic': None`, hence `Option Bool`). -/
structure DataParams where
  dim : Nat
  batch_size : Nat
  cubic : Option Bool
  deriving Repr, DecidableEq, Inhabited

/-- The `opt_params` dict: keys `iterations` and `learning_rate` (the learning
rate is numeric and does not affect control flow; it is carried as `Int`). -/
structure OptParams where
  iterations : Nat
  learning_rate : Int
  deriving Repr, DecidableEq, Inhabited

/-- The `mi_params` dict.  The code reads `mi_params['estimator']`,
`mi_params.get('critic', 'separable')`, `mi_params['critic']`,
`mi_params.get('baseline', 'constant')` and
`mi_params.get('alpha_logit', None)`; `Option` on a field models absence of
the key, so that `.get k default` is `Option.getD` and `[k]` is a match that
raises `keyError` on `none`. -/
structure MiParams where
  estimator : String
  critic : Option String
  baseline : Option String
  alpha_logit : Option Int
  deriving Repr, DecidableEq, Inhabited

/-- The mutable world threaded through the run: `nextId` numbers Python object
constructions (critic and baseline networks), `nextSampleId` numbers calls to
the external sampler, and `critVer` / `baseVer` are version counters of the
critic's resp. the baseline's parameter sets, bumped by the corresponding
optimizer's `.step()`. -/
structure WorldState where
  nextId : Nat
  nextSampleId : Nat
  critVer : Nat
  baseVer : Nat
  deriving Repr, DecidableEq, Inhabited

/-- A constructed critic object: its allocation identity, the `CRITICS` key it
was built from, the `rho` argument (`None` for the initial construction,
the current correlation for the per-iteration conditional rebuild), the
`**critic_params` it was given, and the device of the trailing
`.to(device)`. -/
structure Critic where
  id : Nat
  kind : String
  rho : Option Int
  arch : Option CriticParams
  device : String
  deriving Repr, DecidableEq, Inhabited

/-- The baseline object produced by `BASELINES[...]()`: Python `None` for
`'constant'`, an `nn.Module` (the `mlp(...).to(device)` network, with its
allocation identity and device) for `'unnormalized'`, or a plain function for
`'gaussian'` (`log_prob_gaussian`). -/
inductive BaselineObj where
  | pynone
  | module (id : Nat) (device : String)
  | fn (name : String)
  deriving Repr, DecidableEq, Inhabited

/-- `isinstance(baseline, nn.Module)`. -/
def BaselineObj.isModule : BaselineObj → Bool
  | .module _ _ => true
  | _ => false

/-- Key membership of the notebook dictionary
`CRITICS = {'separable': SeparableCritic, 'concat': ConcatCritic}`. -/
def CRITICS_hasKey (k : String) : Bool :=
  k == "separable" || k == "concat"

/-- `CRITICS[key](rho=r, **critic_params).to(dev)`: dictionary lookup (a
`KeyError` when the key is absent) followed by construction of a fresh critic
object. -/
def constructCritic (key : String) (rho : Option Int) (arch : Option CriticParams)
    (dev : String) (st : WorldState) : Except PyErr (Critic × WorldState) :=
  if CRITICS_hasKey key then
    .ok ({ id := st.nextId, kind := key, rho := rho, arch := arch, device := dev },
         { st with nextId := st.nextId + 1 })
  else .error (.keyError key)

/-- Key membership of the notebook dictionary
`BASELINES = {'constant': ..., 'unnormalized': ..., 'gaussian': ...}`. -/
def BASELINES_hasKey (k : String) : Bool :=
  k == "constant" || k == "unnormalized" || k == "gaussian"

/-- `BASELINES[key]()`: dictionary lookup followed by calling the stored
lambda.  `'constant'` returns Python `None`; `'unnormalized'` constructs
`mlp(dim=dim, hidden_dim=512, output_dim=1, layers=2,
activation='relu').to(device)`, a fresh `nn.Module`; `'gaussian'` returns the
function `log_prob_gaussian`. -/
def constructBaseline (key : String) (dev : String) (st : WorldState) :
    Except PyErr (BaselineObj × WorldState) :=
  if key == "constant" then .ok (.pynone, st)
  else if key == "unnormalized" then
    .ok (.module st.nextId dev, { st with nextId := st.nextId + 1 })
  else if key == "gaussian" then .ok (.fn "log_prob_gaussian", st)
  else .error (.keyError key)

/-- One drawn batch pair `(x, y)` with the arguments it was drawn from and its
draw number (fresh per call). -/
structure Sample where
  id : Nat
  dim : Nat
  rho : Int
  batch_size : Nat
  cubic : Option Bool
  deriving Repr, DecidableEq, Inhabited

/-- Modelled from the spec: `sample_correlated_gaussian` lives in the
repository's `utils` module, which is not under src/.  Spec 4.1: it draws a
pair of correlated batches for the given dimension, correlation and batch
size, optionally cubed.  The numeric content is external randomness and is
abstracted; each call yields a fresh draw, numbered by `nextSampleId`. -/
def sample_correlated_gaussian (dim : Nat) (rho : Int) (bs : Nat) (cubic : Option Bool)
    (st : WorldState) : Sample × WorldState :=
  ({ id := st.nextSampleId, dim := dim, rho := rho, batch_size := bs, cubic := cubic },
   { st with nextSampleId := st.nextSampleId + 1 })

/-- Modelled from the spec: key membership of the estimator-formula selection
in `estimators.estimate_mutual_information` (the `estimators` module is not
under src/).  Spec 4.5: a single entry point selecting among named estimator
formulas by string key: `infonce`, `nwj`, `js`, `smile`, `conditional`. -/
def ESTIMATORS_hasKey (k : String) : Bool :=
  k == "infonce" || k == "nwj" || k == "js" || k == "smile" || k == "conditional"

/-- The full argument tuple of one
`estimate_mutual_information(estimator, x, y, critic_, baseline, alpha_logit,
device=..., **kwargs)` call as issued by `train_step`. -/
structure EstCall where
  estimator : String
  sample : Sample
  critic : Critic
  baseline : BaselineObj
  alpha_logit : Option Int
  device : String
  clip : Option Int
  deriving Repr, DecidableEq, Inhabited

/-- Modelled from the spec: `estimate_mutual_information` from the
`estimators` module (not under src/).  It selects the estimator formula by
the string key (a `KeyError` for an unknown name, per spec 4.5 and 9) and
returns the formula's scalar, abstracted into the parameter `estVal`. -/
def estimate_mutual_information (estVal : EstCall → Int) (c : EstCall) :
    Except PyErr Int :=
  if ESTIMATORS_hasKey c.estimator then .ok (estVal c) else .error (.keyError c.estimator)

/-- `opt_crit.step()`: one Adam step on the critic's parameter set, modelled
as bumping its version counter and touching nothing else. -/
def optStepCrit (st : WorldState) : WorldState :=
  { st with critVer := st.critVer + 1 }

/-- `opt_base.step()`: one Adam step on the baseline's parameter set. -/
def optStepBase (st : WorldState) : WorldState :=
  { st with baseVer := st.baseVer + 1 }

/-- The observable record of one executed `train_step` call: which critic
object was passed to the estimation call and whether it was rebuilt this
iteration, which baseline object was passed, the correlation handed to the
sampler, the draw number of the batch, the `device` argument of the
estimation call, the loss, the value appended to the estimate trace, and
which optimizers stepped. -/
structure StepEvent where
  criticIdUsed : Nat
  criticFresh : Bool
  baselineUsed : BaselineObj
  rhoUsed : Int
  sampleIdUsed : Nat
  deviceUsed : String
  loss : Int
  estimate : Int
  critStepped : Bool
  baseStepped : Bool
  deriving Repr, DecidableEq, Inhabited

/-- The inner function `train_step(rho, data_params, mi_params)` of
`train_estimator`.  Order as in the source: the `zero_grad` calls (no modelled
effect on parameter values), the `mi_params['critic'] == 'conditional'` test
(a `KeyError` when the key is absent) with the conditional rebuild
`CRITICS['conditional'](rho=rho).to(device)`, the sampler call, the
`estimate_mutual_information(..., device="cuda:4", ...)` call with the
hard-coded device literal, `loss = -mi`, `loss.backward()`, `opt_crit.step()`
and, when the baseline is an `nn.Module`, `opt_base.step()`. -/
def train_step (estVal : EstCall → Int) (moduleDevice : String)
    (critic : Critic) (baseline : BaselineObj)
    (rho : Int) (dp : DataParams) (mp : MiParams) (clip : Option Int)
    (st : WorldState) : Except PyErr (Int × StepEvent × WorldState) :=
  match mp.critic with
  | none => .error (.keyError "critic")
  | some ck =>
    match (if ck == "conditional"
           then constructCritic "conditional" (some rho) none moduleDevice st
           else .ok (critic, st)) with
    | .error e => .error e
    | .ok (critic_, st1) =>
      let ps := sample_correlated_gaussian dp.dim rho dp.batch_size dp.cubic st1
      let ec : EstCall :=
        { estimator := mp.estimator, sample := ps.1, critic := critic_,
          baseline := baseline, alpha_logit := mp.alpha_logit,
          device := "cuda:4", clip := clip }
      match estimate_mutual_information estVal ec with
      | .error e => .error e
      | .ok mi =>
        let loss := -mi
        let st3 := optStepCrit ps.2
        let st4 := if baseline.isModule then optStepBase st3 else st3
        .ok (mi,
             { criticIdUsed := critic_.id, criticFresh := ck == "conditional",
               baselineUsed := baseline, rhoUsed := rho, sampleIdUsed := ps.1.id,
               deviceUsed := ec.device, loss := loss, estimate := mi,
               critStepped := true, baseStepped := baseline.isModule }, st4)

/-- The part of `train_estimator` that runs before the training loop: the
initial critic construction `CRITICS[mi_params.get('critic', 'separable')]
(rho=None, **critic_params).to(device)`, the baseline construction
`BASELINES[mi_params.get('baseline', 'constant')]()`, and the optimizer set-up
(`opt_crit` always; `opt_base` only when `isinstance(baseline, nn.Module)`,
else `opt_base = None`, recorded as `hasOptBase`). -/
structure SetupResult where
  critic : Critic
  baseline : BaselineObj
  hasOptBase : Bool
  st : WorldState
  deriving Repr, DecidableEq, Inhabited

/-- See `SetupResult`. -/
def setup_phase (moduleDevice : String) (cp : CriticParams) (mp : MiParams)
    (st : WorldState) : Except PyErr SetupResult :=
  match constructCritic (mp.critic.getD "separable") none (some cp) moduleDevice st with
  | .error e => .error e
  | .ok (critic, st1) =>
    match constructBaseline (mp.baseline.getD "constant") moduleDevice st1 with
    | .error e => .error e
    | .ok (baseline, st2) =>
      .ok { critic := critic, baseline := baseline,
            hasOptBase := baseline.isModule, st := st2 }

/-- The `for i in range(opt_params['iterations'])` loop of `train_estimator`:
`mi = train_step(rhos[i], data_params, mi_params)` followed by
`estimates.append(mi.detach().cpu().numpy())` (the same scalar value).  The
first argument of the recursion is the remaining iteration count, the second
the current index `i`; `acc` and `evs` accumulate the estimate trace and the
step events in reverse. -/
def train_loop (estVal : EstCall → Int) (moduleDevice : String)
    (critic : Critic) (baseline : BaselineObj)
    (dp : DataParams) (mp : MiParams) (clip : Option Int) (rhos : List Int) :
    Nat → Nat → WorldState → List Int → List StepEvent →
    Except PyErr (List Int × List StepEvent × WorldState)
  | 0, _, st, acc, evs => .ok (acc.reverse, evs.reverse, st)
  | k + 1, i, st, acc, evs =>
    match rhos[i]? with
    | none => .error .indexError
    | some rho =>
      match train_step estVal moduleDevice critic baseline rho dp mp clip st with
      | .error e => .error e
      | .ok (mi, ev, st') =>
          train_loop estVal moduleDevice critic baseline dp mp clip rhos
            k (i + 1) st' (mi :: acc) (ev :: evs)

/-- `train_estimator(critic_params, data_params, mi_params, opt_params,
**kwargs)`.  `mi_schedule` and `mi_to_rho` are the external `utils` functions
(not under src/), taken as parameters: the source computes
`mis = mi_schedule(opt_params['iterations'])` and
`rhos = mi_to_rho(data_params['dim'], mis)` once before the loop and indexes
`rhos[i]` per iteration.  `moduleDevice` is the module-level `device`
configuration value; `clip` models the `**kwargs` forwarded into the
estimation call. -/
def train_estimator (estVal : EstCall → Int) (moduleDevice : String)
    (mi_schedule : Nat → List Int) (mi_to_rho : Nat → List Int → List Int)
    (cp : CriticParams) (dp : DataParams) (mp : MiParams) (op : OptParams)
    (clip : Option Int) (st0 : WorldState) :
    Except PyErr (List Int × List StepEvent × WorldState) :=
  match setup_phase moduleDevice cp mp st0 with
  | .error e => .error e
  | .ok su =>
      train_loop estVal moduleDevice su.critic su.baseline dp mp clip
        (mi_to_rho dp.dim (mi_schedule op.iterations)) op.iterations 0 su.st [] []

/-- Estimate trace of a finished run (empty on an aborted run). -/
def resEstimates (r : Except PyErr (List Int × List StepEvent × WorldState)) : List Int :=
  match r with
  | .ok t => t.1
  | .error _ => []

/-- Step events of a finished run (empty on an aborted run). -/
def resEvents (r : Except PyErr (List Int × List StepEvent × WorldState)) : List StepEvent :=
  match r with
  | .ok t => t.2.1
  | .error _ => []

/-- The argument tuple `train_step` hands to `estimate_mutual_information`
when it reuses the persistent critic: the estimator name from `mi_params`,
the batch drawn with correlation `rho` (draw number `sid`), the critic and
baseline objects, `mi_params.get('alpha_logit', None)`, the hard-coded
`device="cuda:4"`, and the forwarded `**kwargs` clip value. -/
def mkEstCall (critic : Critic) (baseline : BaselineObj) (dp : DataParams)
    (mp : MiParams) (clip : Option Int) (rho : Int) (sid : Nat) : EstCall :=
  { estimator := mp.estimator,
    sample := { id := sid, dim := dp.dim, rho := rho,
                batch_size := dp.batch_size, cubic := dp.cubic },
    critic := critic, baseline := baseline, alpha_logit := mp.alpha_logit,
    device := "cuda:4", clip := clip }

/-- The event a successful non-conditional `train_step` emits. -/
def stepEvent (estVal : EstCall → Int) (critic : Critic) (baseline : BaselineObj)
    (dp : DataParams) (mp : MiParams) (clip : Option Int) (rho : Int) (sid : Nat) :
    StepEvent :=
  { criticIdUsed := critic.id, criticFresh := false, baselineUsed := baseline,
    rhoUsed := rho, sampleIdUsed := sid, deviceUsed := "cuda:4",
    loss := -(estVal (mkEstCall critic baseline dp mp clip rho sid)),
    estimate := estVal (mkEstCall critic baseline dp mp clip rho sid),
    critStepped := true, baseStepped := baseline.isModule }

/-- World-state effect of one successful `train_step`: one sampler draw, one
critic optimizer step, one baseline optimizer step when the baseline is a
learned network; no object construction. -/
def stepState (baseline : BaselineObj) (st : WorldState) : WorldState :=
  ⟨st.nextId, st.nextSampleId + 1, st.critVer + 1,
   st.baseVer + (if baseline.isModule then 1 else 0)⟩

/-- World-state effect of `k` successful `train_step` calls. -/
def loopState (baseline : BaselineObj) (k : Nat) (st : WorldState) : WorldState :=
  ⟨st.nextId, st.nextSampleId + k, st.critVer + k,
   st.baseVer + (if baseline.isModule then k else 0)⟩

/-- The baseline object `BASELINES[bk]()` yields for each present key. -/
def baselineOf (bk : String) (dev : String) (st : WorldState) : BaselineObj :=
  if bk == "unnormalized" then .module st.nextId dev
  else if bk == "gaussian" then .fn "log_prob_gaussian"
  else .pynone

/-- Allocation effect of `BASELINES[bk]()`: only `'unnormalized'` constructs
an object. -/
def baselineBump (bk : String) (st : WorldState) : WorldState :=
  if bk == "unnormalized" then { st with nextId := st.nextId + 1 } else st

/-- The result of a successful `setup_phase` in closed form. -/
def setupOf (moduleDevice : String) (cp : CriticParams) (mp : MiParams)
    (st0 : WorldState) : SetupResult :=
  let st1 : WorldState := { st0 with nextId := st0.nextId + 1 }
  let bk := mp.baseline.getD "constant"
  { critic := { id := st0.nextId, kind := mp.critic.getD "separable", rho := none,
                arch := some cp, device := moduleDevice },
    baseline := baselineOf bk moduleDevice st1,
    hasOptBase := (baselineOf bk moduleDevice st1).isModule,
    st := baselineBump bk st1 }

/-- The result of a successful `train_estimator` run in closed form: one
estimate and one event per iteration `j`, the event's correlation being entry
`j` of `mi_to_rho(dim, mi_schedule(iterations))` and its batch the `j`-th
fresh draw. -/
def runOf (estVal : EstCall → Int) (moduleDevice : String)
    (mi_schedule : Nat → List Int) (mi_to_rho : Nat → List Int → List Int)
    (cp : CriticParams) (dp : DataParams) (mp : MiParams) (op : OptParams)
    (clip : Option Int) (st0 : WorldState) :
    List Int × List StepEvent × WorldState :=
  let su := setupOf moduleDevice cp mp st0
  let rhos := mi_to_rho dp.dim (mi_schedule op.iterations)
  ((List.range op.iterations).map (fun j =>
      estVal (mkEstCall su.critic su.baseline dp mp clip (rhos.getD j 0)
        (su.st.nextSampleId + j))),
   (List.range op.iterations).map (fun j =>
      stepEvent estVal su.critic su.baseline dp mp clip (rhos.getD j 0)
        (su.st.nextSampleId + j)),
   loopState su.baseline op.iterations su.st)

/-- The notebook's `critic_params` cell. -/
def demoCP : CriticParams :=
  { dim := 20, layers := 2, embed_dim := 32, hidden_dim := 256, activation := "relu" }

/-- The notebook's `data_params` cell. -/
def demoDP : DataParams := { dim := 20, batch_size := 64, cubic := none }

/-- Concrete stand-in for the external `mi_schedule`: one scheduled value per
iteration. -/
def demoSched : Nat → List Int := fun n => (List.range n).map (fun i => Int.ofNat i)

/-- Concrete stand-in for the external `mi_to_rho`: the pointwise closed-form
map, abstracted to the identity on the schedule list. -/
def demoToRho : Nat → List Int → List Int := fun _ l => l

/-- Fresh world at interpreter start. -/
def demoSt0 : WorldState := ⟨0, 0, 0, 0⟩

/-- Abstract estimator value used in concrete runs. -/
def val7 : EstCall → Int := fun _ => 7

/-- `mi_params` as built in the demo's experiment cell, with the constant
baseline. -/
def mpSep : MiParams := ⟨"infonce", some "separable", some "constant", none⟩

/-- `mi_params` with the learned (`'unnormalized'`) baseline, as in the demo. -/
def mpUnnorm : MiParams := ⟨"infonce", some "separable", some "unnormalized", none⟩

/-- `mi_params` with the closed-form (`'gaussian'`) baseline. -/
def mpGauss : MiParams := ⟨"smile", some "concat", some "gaussian", none⟩

/-- `mi_params` naming the `conditional` estimator with a separable critic. -/
def mpCond : MiParams := ⟨"conditional", some "separable", some "constant", none⟩

/-- `mi_params` with no `'critic'` key at all. -/
def mpNoCritic : MiParams := ⟨"infonce", none, some "constant", none⟩

/-- One-iteration `opt_params`. -/
def op1 : OptParams := ⟨1, 1⟩

/-- Two-iteration `opt_params`. -/
def op2 : OptParams := ⟨2, 1⟩

theorem CRITICS_hasKey_conditional : CRITICS_hasKey "conditional" = false := by decide

theorem CRITICS_hasKey_iff (k : String) :
    CRITICS_hasKey k = true ↔ (k = "separable" ∨ k = "concat") := by
  simp [CRITICS_hasKey, Bool.or_eq_true, beq_iff_eq]

theorem hasKey_ne_conditional {ck : String} (h : CRITICS_hasKey ck = true) :
    (ck == "conditional") = false := by
  cases hck : ck == "conditional" with
  | false => rfl
  | true =>
      have : ck = "conditional" := eq_of_beq hck
      subst this
      exact absurd h (by decide)

theorem train_step_none_error {estVal : EstCall → Int} {moduleDevice : String}
    {critic : Critic} {baseline : BaselineObj} {rho : Int} {dp : DataParams}
    {mp : MiParams} {clip : Option Int} {st : WorldState}
    (hmp : mp.critic = none) :
    train_step estVal moduleDevice critic baseline rho dp mp clip st =
      .error (.keyError "critic") := by
  simp [train_step, hmp]

theorem train_step_conditional_error {estVal : EstCall → Int} {moduleDevice : String}
    {critic : Critic} {baseline : BaselineObj} {rho : Int} {dp : DataParams}
    {mp : MiParams} {clip : Option Int} {st : WorldState}
    (hmp : mp.critic = some "conditional") :
    train_step estVal moduleDevice critic baseline rho dp mp clip st =
      .error (.keyError "conditional") := by
  simp [train_step, hmp, constructCritic, CRITICS_hasKey_conditional]

theorem train_step_bad_estimator {estVal : EstCall → Int} {moduleDevice : String}
    {critic : Critic} {baseline : BaselineObj} {rho : Int} {dp : DataParams}
    {mp : MiParams} {clip : Option Int} {st : WorldState} {ck : String}
    (hmp : mp.critic = some ck) (hck : (ck == "conditional") = false)
    (hest : ESTIMATORS_hasKey mp.estimator = false) :
    train_step estVal moduleDevice critic baseline rho dp mp clip st =
      .error (.keyError mp.estimator) := by
  simp [train_step, hmp, hck, sample_correlated_gaussian,
    estimate_mutual_information, hest]

theorem train_step_ok_eq (estVal : EstCall → Int) (moduleDevice : String)
    (critic : Critic) (baseline : BaselineObj) (rho : Int) (dp : DataParams)
    (mp : MiParams) (clip : Option Int) (st : WorldState) (ck : String)
    (hmp : mp.critic = some ck) (hck : (ck == "conditional") = false)
    (hest : ESTIMATORS_hasKey mp.estimator = true) :
    train_step estVal moduleDevice critic baseline rho dp mp clip st =
      .ok (estVal (mkEstCall critic baseline dp mp clip rho st.nextSampleId),
           stepEvent estVal critic baseline dp mp clip rho st.nextSampleId,
           stepState baseline st) := by
  cases hb : baseline.isModule <;>
    simp [train_step, hmp, hck, hest, sample_correlated_gaussian,
      estimate_mutual_information, optStepCrit, optStepBase, mkEstCall, stepEvent,
      stepState, hb]

theorem train_step_ok_shape {estVal : EstCall → Int} {moduleDevice : String}
    {critic : Critic} {baseline : BaselineObj} {rho : Int} {dp : DataParams}
    {mp : MiParams} {clip : Option Int} {st : WorldState}
    {mi : Int} {ev : StepEvent} {st' : WorldState}
    (h : train_step estVal moduleDevice critic baseline rho dp mp clip st =
      .ok (mi, ev, st')) :
    ev.criticFresh = false ∧ ev.criticIdUsed = critic.id ∧
    ev.baselineUsed = baseline ∧ ev.deviceUsed = "cuda:4" ∧
    ev.loss = -mi ∧ ev.estimate = mi ∧
    ev.critStepped = true ∧ ev.baseStepped = baseline.isModule ∧
    ev.rhoUsed = rho ∧ ev.sampleIdUsed = st.nextSampleId ∧
    st'.nextId = st.nextId ∧ st'.nextSampleId = st.nextSampleId + 1 ∧
    st'.critVer = st.critVer + 1 ∧
    st'.baseVer = st.baseVer + (if baseline.isModule then 1 else 0) := by
  cases hmp : mp.critic with
  | none =>
      rw [train_step_none_error hmp] at h
      exact absurd h (by simp)
  | some ck =>
      cases hck : ck == "conditional" with
      | true =>
          have hcc : ck = "conditional" := eq_of_beq hck
          subst hcc
          rw [train_step_conditional_error hmp] at h
          exact absurd h (by simp)
      | false =>
          cases hest : ESTIMATORS_hasKey mp.estimator with
          | false =>
              rw [train_step_bad_estimator hmp hck hest] at h
              exact absurd h (by simp)
          | true =>
              rw [train_step_ok_eq estVal moduleDevice critic baseline rho dp mp
                clip st ck hmp hck hest] at h
              simp only [Except.ok.injEq, Prod.mk.injEq] at h
              obtain ⟨h1, h2, h3⟩ := h
              subst h1
              subst h2
              subst h3
              refine ⟨rfl, rfl, rfl, rfl, ?_, rfl, rfl, rfl, rfl, rfl, rfl, rfl, rfl, rfl⟩
              simp [stepEvent]

theorem train_loop_zero {estVal : EstCall → Int} {moduleDevice : String}
    {critic : Critic} {baseline : BaselineObj} {dp : DataParams} {mp : MiParams}
    {clip : Option Int} {rhos : List Int} {i : Nat} {st : WorldState}
    {acc : List Int} {evs : List StepEvent} :
    train_loop estVal moduleDevice critic baseline dp mp clip rhos 0 i st acc evs =
      .ok (acc.reverse, evs.reverse, st) := rfl

theorem train_loop_succ_none {estVal : EstCall → Int} {moduleDevice : String}
    {critic : Critic} {baseline : BaselineObj} {dp : DataParams} {mp : MiParams}
    {clip : Option Int} {rhos : List Int} {k i : Nat} {st : WorldState}
    {acc : List Int} {evs : List StepEvent}
    (hr : rhos[i]? = none) :
    train_loop estVal moduleDevice critic baseline dp mp clip rhos (k + 1) i st acc evs =
      .error .indexError := by
  simp [train_loop, hr]

theorem train_loop_succ_err {estVal : EstCall → Int} {moduleDevice : String}
    {critic : Critic} {baseline : BaselineObj} {dp : DataParams} {mp : MiParams}
    {clip : Option Int} {rhos : List Int} {k i : Nat} {st : WorldState}
    {acc : List Int} {evs : List StepEvent} {rho : Int} {e : PyErr}
    (hr : rhos[i]? = some rho)
    (hs : train_step estVal moduleDevice critic baseline rho dp mp clip st = .error e) :
    train_loop estVal moduleDevice critic baseline dp mp clip rhos (k + 1) i st acc evs =
      .error e := by
  simp [train_loop, hr, hs]

theorem train_loop_succ_ok {estVal : EstCall → Int} {moduleDevice : String}
    {critic : Critic} {baseline : BaselineObj} {dp : DataParams} {mp : MiParams}
    {clip : Option Int} {rhos : List Int} {k i : Nat} {st : WorldState}
    {acc : List Int} {evs : List StepEvent} {rho mi : Int} {ev : StepEvent}
    {st' : WorldState}
    (hr : rhos[i]? = some rho)
    (hs : train_step estVal moduleDevice critic baseline rho dp mp clip st =
      .ok (mi, ev, st')) :
    train_loop estVal moduleDevice critic baseline dp mp clip rhos (k + 1) i st acc evs =
      train_loop estVal moduleDevice critic baseline dp mp clip rhos
        k (i + 1) st' (mi :: acc) (ev :: evs) := by
  simp [train_loop, hr, hs]

theorem train_loop_ok_length (estVal : EstCall → Int) (moduleDevice : String)
    (critic : Critic) (baseline : BaselineObj) (dp : DataParams) (mp : MiParams)
    (clip : Option Int) (rhos : List Int) :
    ∀ (k i : Nat) (st : WorldState) (acc : List Int) (evs : List StepEvent)
      (es : List Int) (evR : List StepEvent) (st' : WorldState),
      train_loop estVal moduleDevice critic baseline dp mp clip rhos k i st acc evs =
        .ok (es, evR, st') →
      es.length = acc.length + k ∧ evR.length = evs.length + k := by
  intro k
  induction k with
  | zero =>
      intro i st acc evs es evR st' h
      rw [train_loop_zero] at h
      simp only [Except.ok.injEq, Prod.mk.injEq] at h
      obtain ⟨h1, h2, _⟩ := h
      subst h1
      subst h2
      simp
  | succ k ih =>
      intro i st acc evs es evR st' h
      cases hr : rhos[i]? with
      | none =>
          rw [train_loop_succ_none hr] at h
          exact absurd h (by simp)
      | some rho =>
          cases hs : train_step estVal moduleDevice critic baseline rho dp mp clip st with
          | error e =>
              rw [train_loop_succ_err hr hs] at h
              exact absurd h (by simp)
          | ok t =>
              obtain ⟨mi, ev, st1⟩ := t
              rw [train_loop_succ_ok hr hs] at h
              have hlen := ih (i + 1) st1 (mi :: acc) (ev :: evs) es evR st' h
              simp at hlen
              omega

theorem train_loop_ok_state (estVal : EstCall → Int) (moduleDevice : String)
    (critic : Critic) (baseline : BaselineObj) (dp : DataParams) (mp : MiParams)
    (clip : Option Int) (rhos : List Int) :
    ∀ (k i : Nat) (st : WorldState) (acc : List Int) (evs : List StepEvent)
      (es : List Int) (evR : List StepEvent) (st' : WorldState),
      train_loop estVal moduleDevice critic baseline dp mp clip rhos k i st acc evs =
        .ok (es, evR, st') →
      st'.nextId = st.nextId ∧ st'.nextSampleId = st.nextSampleId + k ∧
      st'.critVer = st.critVer + k ∧
      st'.baseVer = st.baseVer + (if baseline.isModule then k else 0) := by
  intro k
  induction k with
  | zero =>
      intro i st acc evs es evR st' h
      rw [train_loop_zero] at h
      simp only [Except.ok.injEq, Prod.mk.injEq] at h
      obtain ⟨_, _, h3⟩ := h
      subst h3
      simp
  | succ k ih =>
      intro i st acc evs es evR st' h
      cases hr : rhos[i]? with
      | none =>
          rw [train_loop_succ_none hr] at h
          exact absurd h (by simp)
      | some rho =>
          cases hs : train_step estVal moduleDevice critic baseline rho dp mp clip st with
          | error e =>
              rw [train_loop_succ_err hr hs] at h
              exact absurd h (by simp)
          | ok t =>
              obtain ⟨mi, ev, st1⟩ := t
              rw [train_loop_succ_ok hr hs] at h
              have hstep := train_step_ok_shape hs
              have hrest := ih (i + 1) st1 (mi :: acc) (ev :: evs) es evR st' h
              obtain ⟨-, -, -, -, -, -, -, -, -, -, e1, e2, e3, e4⟩ := hstep
              obtain ⟨f1, f2, f3, f4⟩ := hrest
              cases hb : baseline.isModule <;> simp [hb] at e4 f4 ⊢ <;>
                refine ⟨by omega, by omega, by omega, by omega⟩

theorem train_loop_ok_events (estVal : EstCall → Int) (moduleDevice : String)
    (critic : Critic) (baseline : BaselineObj) (dp : DataParams) (mp : MiParams)
    (clip : Option Int) (rhos : List Int) (P : StepEvent → Prop)
    (hP : ∀ (rho : Int) (st : WorldState) (mi : Int) (ev : StepEvent) (st' : WorldState),
      train_step estVal moduleDevice critic baseline rho dp mp clip st =
        .ok (mi, ev, st') → P ev) :
    ∀ (k i : Nat) (st : WorldState) (acc : List Int) (evs : List StepEvent)
      (es : List Int) (evR : List StepEvent) (st' : WorldState),
      train_loop estVal moduleDevice critic baseline dp mp clip rhos k i st acc evs =
        .ok (es, evR, st') →
      (∀ e ∈ evs, P e) → ∀ e ∈ evR, P e := by
  intro k
  induction k with
  | zero =>
      intro i st acc evs es evR st' h hacc
      rw [train_loop_zero] at h
      simp only [Except.ok.injEq, Prod.mk.injEq] at h
      obtain ⟨_, h2, _⟩ := h
      subst h2
      intro e he
      exact hacc e (List.mem_reverse.mp he)
  | succ k ih =>
      intro i st acc evs es evR st' h hacc
      cases hr : rhos[i]? with
      | none =>
          rw [train_loop_succ_none hr] at h
          exact absurd h (by simp)
      | some rho =>
          cases hs : train_step estVal moduleDevice critic baseline rho dp mp clip st with
          | error e =>
              rw [train_loop_succ_err hr hs] at h
              exact absurd h (by simp)
          | ok t =>
              obtain ⟨mi, ev, st1⟩ := t
              rw [train_loop_succ_ok hr hs] at h
              refine ih (i + 1) st1 (mi :: acc) (ev :: evs) es evR st' h ?_
              intro e he
              rcases List.mem_cons.mp he with he | he
              · subst he
                exact hP rho st mi e st1 hs
              · exact hacc e he

theorem append_singleton_map_range {α : Type} (f g : Nat → α) (a : α) (xs : List α)
    (k : Nat) (ha : g 0 = a) (hfg : ∀ j, f j = g (j + 1)) :
    xs ++ [a] ++ (List.range k).map f = xs ++ (List.range (k + 1)).map g := by
  rw [List.append_assoc]
  congr 1
  rw [List.singleton_append, List.range_succ_eq_map, List.map_cons, ha, List.map_map]
  refine congrArg (a :: ·) (List.map_congr_left ?_)
  intro j _
  simp [Function.comp, Nat.succ_eq_add_one, hfg]

theorem loopState_zero (baseline : BaselineObj) (st : WorldState) :
    loopState baseline 0 st = st := by
  simp [loopState]

theorem loopState_succ (baseline : BaselineObj) (st : WorldState) (k : Nat) :
    loopState baseline k (stepState baseline st) = loopState baseline (k + 1) st := by
  cases hb : baseline.isModule <;>
    simp [loopState, stepState, hb, WorldState.mk.injEq] <;> omega

theorem train_loop_ok_eq (estVal : EstCall → Int) (moduleDevice : String)
    (critic : Critic) (baseline : BaselineObj) (dp : DataParams) (mp : MiParams)
    (clip : Option Int) (rhos : List Int) (ck : String)
    (hmp : mp.critic = some ck) (hck : (ck == "conditional") = false)
    (hest : ESTIMATORS_hasKey mp.estimator = true) :
    ∀ (k i : Nat) (st : WorldState) (acc : List Int) (evs : List StepEvent),
      i + k ≤ rhos.length →
      train_loop estVal moduleDevice critic baseline dp mp clip rhos k i st acc evs =
        .ok (acc.reverse ++ (List.range k).map (fun j =>
               estVal (mkEstCall critic baseline dp mp clip
                 (rhos.getD (i + j) 0) (st.nextSampleId + j))),
             evs.reverse ++ (List.range k).map (fun j =>
               stepEvent estVal critic baseline dp mp clip
                 (rhos.getD (i + j) 0) (st.nextSampleId + j)),
             loopState baseline k st) := by
  intro k
  induction k with
  | zero =>
      intro i st acc evs _
      rw [train_loop_zero]
      simp [loopState_zero]
  | succ k ih =>
      intro i st acc evs hlen
      have hi : i < rhos.length := by omega
      have hg : rhos.getD i 0 = rhos[i] := by
        rw [List.getD_eq_getElem?_getD, List.getElem?_eq_getElem hi]
        rfl
      have hr : rhos[i]? = some (rhos.getD i 0) := by
        rw [hg]
        exact List.getElem?_eq_getElem hi
      rw [train_loop_succ_ok hr
          (train_step_ok_eq estVal moduleDevice critic baseline (rhos.getD i 0) dp mp
            clip st ck hmp hck hest),
        ih (i + 1) (stepState baseline st) _ _ (by omega)]
      simp only [Except.ok.injEq, Prod.mk.injEq, stepState]
      refine ⟨?_, ?_, ?_⟩
      · rw [List.reverse_cons]
        exact append_singleton_map_range _ _ _ _ _ (by simp) (fun j => by
          rw [show i + 1 + j = i + (j + 1) from by omega,
              show st.nextSampleId + 1 + j = st.nextSampleId + (j + 1) from by omega])
      · rw [List.reverse_cons]
        exact append_singleton_map_range _ _ _ _ _ (by simp) (fun j => by
          rw [show i + 1 + j = i + (j + 1) from by omega,
              show st.nextSampleId + 1 + j = st.nextSampleId + (j + 1) from by omega])
      · exact loopState_succ baseline st k

theorem constructBaseline_ok {bk dev : String} {st : WorldState}
    (hbk : BASELINES_hasKey bk = true) :
    constructBaseline bk dev st = .ok (baselineOf bk dev st, baselineBump bk st) := by
  simp only [BASELINES_hasKey, Bool.or_eq_true, beq_iff_eq] at hbk
  rcases hbk with (h | h) | h <;> subst h <;>
    simp [constructBaseline, baselineOf, baselineBump]

theorem constructBaseline_err {bk dev : String} {st : WorldState}
    (hbk : BASELINES_hasKey bk = false) :
    constructBaseline bk dev st = .error (.keyError bk) := by
  simp only [BASELINES_hasKey, Bool.or_eq_false_iff] at hbk
  obtain ⟨⟨h1, h2⟩, h3⟩ := hbk
  simp [constructBaseline, h1, h2, h3]

theorem setup_phase_err_critic {moduleDevice : String} {cp : CriticParams}
    {mp : MiParams} {st0 : WorldState} {ck : String}
    (hmp : mp.critic = some ck) (hck : CRITICS_hasKey ck = false) :
    setup_phase moduleDevice cp mp st0 = .error (.keyError ck) := by
  simp [setup_phase, constructCritic, hmp, hck]

theorem setup_phase_err_baseline {moduleDevice : String} {cp : CriticParams}
    {mp : MiParams} {st0 : WorldState}
    (hck : CRITICS_hasKey (mp.critic.getD "separable") = true)
    (hbk : BASELINES_hasKey (mp.baseline.getD "constant") = false) :
    setup_phase moduleDevice cp mp st0 =
      .error (.keyError (mp.baseline.getD "constant")) := by
  simp [setup_phase, constructCritic, hck, constructBaseline_err hbk]

theorem setup_phase_ok {moduleDevice : String} {cp : CriticParams} {mp : MiParams}
    {st0 : WorldState}
    (hck : CRITICS_hasKey (mp.critic.getD "separable") = true)
    (hbk : BASELINES_hasKey (mp.baseline.getD "constant") = true) :
    setup_phase moduleDevice cp mp st0 = .ok (setupOf moduleDevice cp mp st0) := by
  simp [setup_phase, constructCritic, hck, constructBaseline_ok hbk, setupOf]

theorem setup_phase_ok_keys {moduleDevice : String} {cp : CriticParams} {mp : MiParams}
    {st0 : WorldState} {su : SetupResult}
    (h : setup_phase moduleDevice cp mp st0 = .ok su) :
    CRITICS_hasKey (mp.critic.getD "separable") = true ∧
    BASELINES_hasKey (mp.baseline.getD "constant") = true ∧
    su = setupOf moduleDevice cp mp st0 := by
  cases hk : CRITICS_hasKey (mp.critic.getD "separable") with
  | false =>
      have hd : setup_phase moduleDevice cp mp st0 =
          .error (.keyError (mp.critic.getD "separable")) := by
        simp [setup_phase, constructCritic, hk]
      rw [hd] at h
      exact absurd h (by simp)
  | true =>
      cases hb : BASELINES_hasKey (mp.baseline.getD "constant") with
      | false =>
          rw [setup_phase_err_baseline hk hb] at h
          exact absurd h (by simp)
      | true =>
          rw [setup_phase_ok hk hb] at h
          exact ⟨rfl, rfl, (Except.ok.inj h).symm⟩

theorem train_estimator_of_setup_err {estVal : EstCall → Int} {moduleDevice : String}
    {mi_schedule : Nat → List Int} {mi_to_rho : Nat → List Int → List Int}
    {cp : CriticParams} {dp : DataParams} {mp : MiParams} {op : OptParams}
    {clip : Option Int} {st0 : WorldState} {e : PyErr}
    (hsu : setup_phase moduleDevice cp mp st0 = .error e) :
    train_estimator estVal moduleDevice mi_schedule mi_to_rho cp dp mp op clip st0 =
      .error e := by
  simp [train_estimator, hsu]

theorem train_estimator_of_setup_ok {estVal : EstCall → Int} {moduleDevice : String}
    {mi_schedule : Nat → List Int} {mi_to_rho : Nat → List Int → List Int}
    {cp : CriticParams} {dp : DataParams} {mp : MiParams} {op : OptParams}
    {clip : Option Int} {st0 : WorldState} {su : SetupResult}
    (hsu : setup_phase moduleDevice cp mp st0 = .ok su) :
    train_estimator estVal moduleDevice mi_schedule mi_to_rho cp dp mp op clip st0 =
      train_loop estVal moduleDevice su.critic su.baseline dp mp clip
        (mi_to_rho dp.dim (mi_schedule op.iterations)) op.iterations 0 su.st [] [] := by
  simp [train_estimator, hsu]

theorem train_estimator_ok_split {estVal : EstCall → Int} {moduleDevice : String}
    {mi_schedule : Nat → List Int} {mi_to_rho : Nat → List Int → List Int}
    {cp : CriticParams} {dp : DataParams} {mp : MiParams} {op : OptParams}
    {clip : Option Int} {st0 : WorldState} {es : List Int} {evs : List StepEvent}
    {st' : WorldState}
    (h : train_estimator estVal moduleDevice mi_schedule mi_to_rho cp dp mp op clip st0 =
      .ok (es, evs, st')) :
    ∃ su, setup_phase moduleDevice cp mp st0 = .ok su ∧
      train_loop estVal moduleDevice su.critic su.baseline dp mp clip
        (mi_to_rho dp.dim (mi_schedule op.iterations)) op.iterations 0 su.st [] [] =
        .ok (es, evs, st') := by
  cases hsu : setup_phase moduleDevice cp mp st0 with
  | error e =>
      rw [train_estimator_of_setup_err hsu] at h
      exact absurd h (by simp)
  | ok su =>
      refine ⟨su, rfl, ?_⟩
      rw [train_estimator_of_setup_ok hsu] at h
      exact h

theorem train_estimator_ok_eq (estVal : EstCall → Int) (moduleDevice : String)
    (mi_schedule : Nat → List Int) (mi_to_rho : Nat → List Int → List Int)
    (cp : CriticParams) (dp : DataParams) (mp : MiParams) (op : OptParams)
    (clip : Option Int) (st0 : WorldState) (ck : String)
    (hmp : mp.critic = some ck) (hck : CRITICS_hasKey ck = true)
    (hbk : BASELINES_hasKey (mp.baseline.getD "constant") = true)
    (hest : ESTIMATORS_hasKey mp.estimator = true)
    (hlen : op.iterations ≤ (mi_to_rho dp.dim (mi_schedule op.iterations)).length) :
    train_estimator estVal moduleDevice mi_schedule mi_to_rho cp dp mp op clip st0 =
      .ok (runOf estVal moduleDevice mi_schedule mi_to_rho cp dp mp op clip st0) := by
  have hck2 : CRITICS_hasKey (mp.critic.getD "separable") = true := by
    rw [hmp]
    exact hck
  rw [train_estimator_of_setup_ok (setup_phase_ok hck2 hbk)]
  rw [train_loop_ok_eq estVal moduleDevice (setupOf moduleDevice cp mp st0).critic
      (setupOf moduleDevice cp mp st0).baseline dp mp clip
      (mi_to_rho dp.dim (mi_schedule op.iterations)) ck hmp
      (hasKey_ne_conditional hck) hest op.iterations 0
      (setupOf moduleDevice cp mp st0).st [] [] (by omega)]
  simp [runOf]

theorem train_loop_first_err {estVal : EstCall → Int} {moduleDevice : String}
    {critic : Critic} {baseline : BaselineObj} {dp : DataParams} {mp : MiParams}
    {clip : Option Int} {rhos : List Int} {k i : Nat} {st : WorldState}
    {acc : List Int} {evs : List StepEvent} {rho : Int} {e : PyErr}
    (hk : 1 ≤ k) (hr : rhos[i]? = some rho)
    (hs : train_step estVal moduleDevice critic baseline rho dp mp clip st = .error e) :
    train_loop estVal moduleDevice critic baseline dp mp clip rhos k i st acc evs =
      .error e := by
  obtain ⟨m, hm⟩ : ∃ m, k = m + 1 := ⟨k - 1, by omega⟩
  subst hm
  exact train_loop_succ_err hr hs

theorem getD_map_range {α : Type} (f : Nat → α) (n i : Nat) (d : α) (h : i < n) :
    ((List.range n).map f).getD i d = f i := by
  rw [List.getD_eq_getElem?_getD, List.getElem?_map, List.getElem?_range h]
  rfl

theorem setupOf_st_counts (moduleDevice : String) (cp : CriticParams) (mp : MiParams)
    (st0 : WorldState) :
    (setupOf moduleDevice cp mp st0).st.nextSampleId = st0.nextSampleId ∧
    (setupOf moduleDevice cp mp st0).st.critVer = st0.critVer ∧
    (setupOf moduleDevice cp mp st0).st.baseVer = st0.baseVer := by
  cases hbb : (mp.baseline.getD "constant") == "unnormalized" <;>
    simp [setupOf, baselineBump, hbb]

theorem train_estimator_events_all (estVal : EstCall → Int) (moduleDevice : String)
    (mi_schedule : Nat → List Int) (mi_to_rho : Nat → List Int → List Int)
    (cp : CriticParams) (dp : DataParams) (mp : MiParams) (op : OptParams)
    (clip : Option Int) (st0 : WorldState) (P : StepEvent → Bool)
    (hP : ∀ su, setup_phase moduleDevice cp mp st0 = .ok su →
      ∀ (rho : Int) (st : WorldState) (mi : Int) (ev : StepEvent) (st' : WorldState),
        train_step estVal moduleDevice su.critic su.baseline rho dp mp clip st =
          .ok (mi, ev, st') → P ev = true) :
    (resEvents (train_estimator estVal moduleDevice mi_schedule mi_to_rho cp dp mp op
      clip st0)).all P = true := by
  cases hrun : train_estimator estVal moduleDevice mi_schedule mi_to_rho cp dp mp op clip st0 with
  | error e => simp [resEvents]
  | ok t =>
      obtain ⟨es, evs, st'⟩ := t
      obtain ⟨su, hsu, hloop⟩ := train_estimator_ok_split hrun
      have hev := train_loop_ok_events estVal moduleDevice su.critic su.baseline dp mp
        clip (mi_to_rho dp.dim (mi_schedule op.iterations)) (fun e => P e = true)
        (hP su hsu) op.iterations 0 su.st [] [] es evs st' hloop (by simp)
      simp only [resEvents]
      exact List.all_eq_true.mpr hev

/-- Claim C1 counterexample: with the unknown estimator name "bogus" (and
valid critic and baseline names), the set-up phase of `train_estimator`
succeeds — the run reaches the training loop instead of failing before
training starts — the one-iteration run fails only inside the first training
iteration's estimation call, and the zero-iteration run completes without any
failure.  Hence an unknown estimator name does not cause the run to fail fast
before training starts, refuting that part of the claim. -/
theorem C1_counterexample :
    setup_phase "cuda:4" demoCP ⟨"bogus", some "separable", some "constant", none⟩
      demoSt0 =
      .ok ⟨⟨0, "separable", none, some demoCP, "cuda:4"⟩, .pynone, false, ⟨1, 0, 0, 0⟩⟩ ∧
    train_estimator val7 "cuda:4" demoSched demoToRho demoCP demoDP
      ⟨"bogus", some "separable", some "constant", none⟩ op1 none demoSt0 =
      .error (.keyError "bogus") ∧
    train_estimator val7 "cuda:4" demoSched demoToRho demoCP demoDP
      ⟨"bogus", some "separable", some "constant", none⟩ ⟨0, 1⟩ none demoSt0 =
      .ok ([], [], ⟨1, 0, 0, 0⟩) := by
  refine ⟨rfl, rfl, rfl⟩

/-- Claim C1 (amended): an unknown critic name and an unknown baseline name
raise a `KeyError` naming the unknown string at object construction, before
the training loop; an unknown estimator name also raises a `KeyError` naming
it, but only inside the first training iteration's estimation call, after
training has started (and a zero-iteration run never detects it).  In no case
is an unknown (present) name silently replaced by a default. -/
theorem C1_unknown_name_never_defaulted :
    (∀ (estVal : EstCall → Int) (moduleDevice : String)
       (mi_schedule : Nat → List Int) (mi_to_rho : Nat → List Int → List Int)
       (cp : CriticParams) (dp : DataParams) (mp : MiParams) (op : OptParams)
       (clip : Option Int) (st0 : WorldState) (ck : String),
       mp.critic = some ck → CRITICS_hasKey ck = false →
       train_estimator estVal moduleDevice mi_schedule mi_to_rho cp dp mp op clip st0 =
         .error (.keyError ck)) ∧
    (∀ (estVal : EstCall → Int) (moduleDevice : String)
       (mi_schedule : Nat → List Int) (mi_to_rho : Nat → List Int → List Int)
       (cp : CriticParams) (dp : DataParams) (mp : MiParams) (op : OptParams)
       (clip : Option Int) (st0 : WorldState) (bk : String),
       CRITICS_hasKey (mp.critic.getD "separable") = true →
       mp.baseline = some bk → BASELINES_hasKey bk = false →
       train_estimator estVal moduleDevice mi_schedule mi_to_rho cp dp mp op clip st0 =
         .error (.keyError bk)) ∧
    (∀ (estVal : EstCall → Int) (moduleDevice : String)
       (mi_schedule : Nat → List Int) (mi_to_rho : Nat → List Int → List Int)
       (cp : CriticParams) (dp : DataParams) (mp : MiParams) (op : OptParams)
       (clip : Option Int) (st0 : WorldState) (ck : String),
       mp.critic = some ck → CRITICS_hasKey ck = true →
       BASELINES_hasKey (mp.baseline.getD "constant") = true →
       ESTIMATORS_hasKey mp.estimator = false →
       1 ≤ op.iterations →
       0 < (mi_to_rho dp.dim (mi_schedule op.iterations)).length →
       train_estimator estVal moduleDevice mi_schedule mi_to_rho cp dp mp op clip st0 =
         .error (.keyError mp.estimator)) := by
  refine ⟨?_, ?_, ?_⟩
  · intro estVal moduleDevice mi_schedule mi_to_rho cp dp mp op clip st0 ck hmp hck
    exact train_estimator_of_setup_err (setup_phase_err_critic hmp hck)
  · intro estVal moduleDevice mi_schedule mi_to_rho cp dp mp op clip st0 bk hck hmb hbk
    have hbd : mp.baseline.getD "constant" = bk := by rw [hmb]; rfl
    have hbk2 : BASELINES_hasKey (mp.baseline.getD "constant") = false := by
      rw [hbd]
      exact hbk
    have herr : train_estimator estVal moduleDevice mi_schedule mi_to_rho cp dp mp op
        clip st0 = .error (.keyError (mp.baseline.getD "constant")) :=
      train_estimator_of_setup_err (setup_phase_err_baseline hck hbk2)
    rw [hbd] at herr
    exact herr
  · intro estVal moduleDevice mi_schedule mi_to_rho cp dp mp op clip st0 ck hmp hck hbk
      hest hit hlen
    have hck2 : CRITICS_hasKey (mp.critic.getD "separable") = true := by
      rw [hmp]
      exact hck
    rw [train_estimator_of_setup_ok (setup_phase_ok hck2 hbk)]
    exact train_loop_first_err hit (List.getElem?_eq_getElem hlen)
      (train_step_bad_estimator hmp (hasKey_ne_conditional hck) hest)

/-- Claim C1 witness: the three failure modes at concrete configurations — an
unknown critic name and an unknown baseline name abort with a `KeyError`
naming them, and so does an unknown estimator name on a one-iteration run. -/
theorem C1_witness :
    train_estimator val7 "cuda:4" demoSched demoToRho demoCP demoDP
      ⟨"infonce", some "unknowncritic", some "constant", none⟩ op1 none demoSt0 =
      .error (.keyError "unknowncritic") ∧
    train_estimator val7 "cuda:4" demoSched demoToRho demoCP demoDP
      ⟨"infonce", some "separable", some "unknownbase", none⟩ op1 none demoSt0 =
      .error (.keyError "unknownbase") ∧
    train_estimator val7 "cuda:4" demoSched demoToRho demoCP demoDP
      ⟨"bogus", some "separable", some "constant", none⟩ op1 none demoSt0 =
      .error (.keyError "bogus") := by
  refine ⟨?_, ?_, ?_⟩
  · exact C1_unknown_name_never_defaulted.1 val7 "cuda:4" demoSched demoToRho demoCP
      demoDP _ op1 none demoSt0 "unknowncritic" rfl (by decide)
  · exact C1_unknown_name_never_defaulted.2.1 val7 "cuda:4" demoSched demoToRho demoCP
      demoDP _ op1 none demoSt0 "unknownbase" (by decide) rfl (by decide)
  · exact C1_unknown_name_never_defaulted.2.2 val7 "cuda:4" demoSched demoToRho demoCP
      demoDP _ op1 none demoSt0 "separable" rfl (by decide) (by decide) (by decide)
      (by decide) (by decide)

/-- Claim C2 counterexample: a two-iteration run whose estimator name is
`conditional` (with critic `separable`).  Both recorded iterations use the
same critic object (id 0, the one built before the loop) and neither rebuilds
it (`criticFresh = false`), refuting that the critic is reconstructed fresh
every iteration when the estimator is `conditional`: the rebuild branch is
keyed on the critic name, not the estimator name. -/
theorem C2_counterexample :
    train_estimator val7 "cuda:4" demoSched demoToRho demoCP demoDP mpCond op2 none
      demoSt0 =
      .ok ([7, 7],
           [⟨0, false, .pynone, 0, 0, "cuda:4", -7, 7, true, false⟩,
            ⟨0, false, .pynone, 1, 1, "cuda:4", -7, 7, true, false⟩],
           ⟨1, 2, 2, 0⟩) := by
  rfl

/-- Claim C2 (amended): the per-iteration rebuild special case is keyed on the
critic name, not the estimator name.  When `mi_params['critic']` is
`'conditional'`, `train_step` attempts to construct a fresh critic
parameterized by the current correlation — which fails with a `KeyError`
because `CRITICS` has no `'conditional'` entry — and in every `train_step`
that completes, and hence at every iteration of every completed
`train_estimator` run, the critic object constructed before the loop is
reused unchanged. -/
theorem C2_rebuild_keyed_on_critic_name :
    (∀ (estVal : EstCall → Int) (moduleDevice : String) (critic : Critic)
       (baseline : BaselineObj) (rho : Int) (dp : DataParams) (mp : MiParams)
       (clip : Option Int) (st : WorldState),
       mp.critic = some "conditional" →
       train_step estVal moduleDevice critic baseline rho dp mp clip st =
         .error (.keyError "conditional")) ∧
    (∀ (estVal : EstCall → Int) (moduleDevice : String) (critic : Critic)
       (baseline : BaselineObj) (rho : Int) (dp : DataParams) (mp : MiParams)
       (clip : Option Int) (st : WorldState) (mi : Int) (ev : StepEvent)
       (st' : WorldState),
       train_step estVal moduleDevice critic baseline rho dp mp clip st =
         .ok (mi, ev, st') →
       ev.criticFresh = false ∧ ev.criticIdUsed = critic.id) ∧
    (∀ (estVal : EstCall → Int) (moduleDevice : String)
       (mi_schedule : Nat → List Int) (mi_to_rho : Nat → List Int → List Int)
       (cp : CriticParams) (dp : DataParams) (mp : MiParams) (op : OptParams)
       (clip : Option Int) (st0 : WorldState) (su : SetupResult),
       setup_phase moduleDevice cp mp st0 = .ok su →
       (resEvents (train_estimator estVal moduleDevice mi_schedule mi_to_rho cp dp mp
         op clip st0)).all
         (fun e => e.criticIdUsed == su.critic.id && !e.criticFresh) = true) := by
  refine ⟨?_, ?_, ?_⟩
  · intro estVal moduleDevice critic baseline rho dp mp clip st hmp
    exact train_step_conditional_error hmp
  · intro estVal moduleDevice critic baseline rho dp mp clip st mi ev st' h
    obtain ⟨h1, h2, -⟩ := train_step_ok_shape h
    exact ⟨h1, h2⟩
  · intro estVal moduleDevice mi_schedule mi_to_rho cp dp mp op clip st0 su hsu
    refine train_estimator_events_all estVal moduleDevice mi_schedule mi_to_rho cp dp
      mp op clip st0 _ ?_
    intro su' hsu' rho st mi ev st' hstep
    rw [hsu] at hsu'
    have hsu2 : su = su' := Except.ok.inj hsu'
    subst hsu2
    obtain ⟨h1, h2, -⟩ := train_step_ok_shape hstep
    simp [h1, h2]

/-- Claim C2 witness: the conditional-keyed `train_step` fails with the
missing-key error at a concrete call, and in a concrete completed run every
event reuses the set-up critic without rebuilding. -/
theorem C2_witness :
    train_step val7 "cuda:4" ⟨0, "separable", none, some demoCP, "cuda:4"⟩ .pynone 3
      demoDP ⟨"nwj", some "conditional", some "constant", none⟩ none demoSt0 =
      .error (.keyError "conditional") ∧
    (resEvents (train_estimator val7 "cuda:4" demoSched demoToRho demoCP demoDP mpCond
      op2 none demoSt0)).all
      (fun e => e.criticIdUsed == (setupOf "cuda:4" demoCP mpCond demoSt0).critic.id &&
        !e.criticFresh) = true := by
  refine ⟨?_, ?_⟩
  · exact C2_rebuild_keyed_on_critic_name.1 val7 "cuda:4"
      ⟨0, "separable", none, some demoCP, "cuda:4"⟩ .pynone 3 demoDP
      ⟨"nwj", some "conditional", some "constant", none⟩ none demoSt0 rfl
  · exact C2_rebuild_keyed_on_critic_name.2.2 val7 "cuda:4" demoSched demoToRho demoCP
      demoDP mpCond op2 none demoSt0 (setupOf "cuda:4" demoCP mpCond demoSt0)
      (setup_phase_ok (by decide) (by decide))

theorem runOf_getD (estVal : EstCall → Int) (moduleDevice : String)
    (mi_schedule : Nat → List Int) (mi_to_rho : Nat → List Int → List Int)
    (cp : CriticParams) (dp : DataParams) (mp : MiParams) (op : OptParams)
    (clip : Option Int) (st0 : WorldState) (i : Nat) (hi : i < op.iterations) :
    (runOf estVal moduleDevice mi_schedule mi_to_rho cp dp mp op clip st0).2.1.getD i
        default =
      stepEvent estVal (setupOf moduleDevice cp mp st0).critic
        (setupOf moduleDevice cp mp st0).baseline dp mp clip
        ((mi_to_rho dp.dim (mi_schedule op.iterations)).getD i 0)
        ((setupOf moduleDevice cp mp st0).st.nextSampleId + i) ∧
    (runOf estVal moduleDevice mi_schedule mi_to_rho cp dp mp op clip st0).1.getD i 0 =
      estVal (mkEstCall (setupOf moduleDevice cp mp st0).critic
        (setupOf moduleDevice cp mp st0).baseline dp mp clip
        ((mi_to_rho dp.dim (mi_schedule op.iterations)).getD i 0)
        ((setupOf moduleDevice cp mp st0).st.nextSampleId + i)) := by
  constructor
  · simp only [runOf]
    exact getD_map_range _ _ _ _ hi
  · simp only [runOf]
    exact getD_map_range _ _ _ _ hi

/-- Claim C3: inside the training step, the estimation call's `device`
argument is the hard-coded literal "cuda:4", for every value of the
module-level `device` configuration: every event of every run records
`deviceUsed = "cuda:4"`, even though the module-level device value is what
the critic construction (`.to(device)`) actually receives. -/
theorem C3_device_literal_in_estimate_call :
    (∀ (estVal : EstCall → Int) (moduleDevice : String)
       (mi_schedule : Nat → List Int) (mi_to_rho : Nat → List Int → List Int)
       (cp : CriticParams) (dp : DataParams) (mp : MiParams) (op : OptParams)
       (clip : Option Int) (st0 : WorldState),
       (resEvents (train_estimator estVal moduleDevice mi_schedule mi_to_rho cp dp mp
         op clip st0)).all (fun e => e.deviceUsed == "cuda:4") = true) ∧
    (∀ (moduleDevice : String) (cp : CriticParams) (mp : MiParams) (st0 : WorldState)
       (su : SetupResult),
       setup_phase moduleDevice cp mp st0 = .ok su →
       su.critic.device = moduleDevice) := by
  constructor
  · intro estVal moduleDevice mi_schedule mi_to_rho cp dp mp op clip st0
    refine train_estimator_events_all estVal moduleDevice mi_schedule mi_to_rho cp dp
      mp op clip st0 _ ?_
    intro su hsu rho st mi ev st' hstep
    obtain ⟨-, -, -, h4, -⟩ := train_step_ok_shape hstep
    simp [h4]
  · intro moduleDevice cp mp st0 su hsu
    obtain ⟨-, -, hsu2⟩ := setup_phase_ok_keys hsu
    subst hsu2
    simp [setupOf]

/-- Claim C3 witness: a run configured with module-level device "cpu" still
issues its estimation call with the literal "cuda:4", while its critic was
constructed on "cpu". -/
theorem C3_witness :
    (resEvents (train_estimator val7 "cpu" demoSched demoToRho demoCP demoDP mpUnnorm
      op1 none demoSt0)).all (fun e => e.deviceUsed == "cuda:4") = true ∧
    (setupOf "cpu" demoCP mpUnnorm demoSt0).critic.device = "cpu" := by
  constructor
  · exact C3_device_literal_in_estimate_call.1 val7 "cpu" demoSched demoToRho demoCP
      demoDP mpUnnorm op1 none demoSt0
  · exact C3_device_literal_in_estimate_call.2 "cpu" demoCP mpUnnorm demoSt0
      (setupOf "cpu" demoCP mpUnnorm demoSt0) (setup_phase_ok (by decide) (by decide))

/-- Claim C4: at every iteration `i` of a valid `train_estimator` run, the
correlation handed to the sampler is entry `i` of
`mi_to_rho(dim, mi_schedule(iterations))` computed before the loop, the batch
is the `i`-th fresh draw, the loss is the negation of the estimator's scalar,
and the value recorded in the trace is that iteration's scalar estimate. -/
theorem C4_per_iteration_data_flow (estVal : EstCall → Int) (moduleDevice : String)
    (mi_schedule : Nat → List Int) (mi_to_rho : Nat → List Int → List Int)
    (cp : CriticParams) (dp : DataParams) (mp : MiParams) (op : OptParams)
    (clip : Option Int) (st0 : WorldState) (ck : String) (i : Nat)
    (hmp : mp.critic = some ck) (hck : CRITICS_hasKey ck = true)
    (hbk : BASELINES_hasKey (mp.baseline.getD "constant") = true)
    (hest : ESTIMATORS_hasKey mp.estimator = true)
    (hlen : op.iterations ≤ (mi_to_rho dp.dim (mi_schedule op.iterations)).length)
    (hi : i < op.iterations) :
    ((resEvents (train_estimator estVal moduleDevice mi_schedule mi_to_rho cp dp mp op
       clip st0)).getD i default).rhoUsed =
      (mi_to_rho dp.dim (mi_schedule op.iterations)).getD i 0 ∧
    ((resEvents (train_estimator estVal moduleDevice mi_schedule mi_to_rho cp dp mp op
       clip st0)).getD i default).sampleIdUsed = st0.nextSampleId + i ∧
    ((resEvents (train_estimator estVal moduleDevice mi_schedule mi_to_rho cp dp mp op
       clip st0)).getD i default).loss =
      -(((resEvents (train_estimator estVal moduleDevice mi_schedule mi_to_rho cp dp mp
        op clip st0)).getD i default).estimate) ∧
    (resEstimates (train_estimator estVal moduleDevice mi_schedule mi_to_rho cp dp mp
      op clip st0)).getD i 0 =
      ((resEvents (train_estimator estVal moduleDevice mi_schedule mi_to_rho cp dp mp
        op clip st0)).getD i default).estimate := by
  rw [train_estimator_ok_eq estVal moduleDevice mi_schedule mi_to_rho cp dp mp op clip
    st0 ck hmp hck hbk hest hlen]
  simp only [resEvents, resEstimates]
  obtain ⟨hev, hes⟩ := runOf_getD estVal moduleDevice mi_schedule mi_to_rho cp dp mp op
    clip st0 i hi
  refine ⟨?_, ?_, ?_, ?_⟩
  · rw [hev]
    simp [stepEvent]
  · rw [hev]
    simp only [stepEvent]
    rw [(setupOf_st_counts moduleDevice cp mp st0).1]
  · rw [hev]
    simp [stepEvent]
  · rw [hes, hev]
    simp [stepEvent]

/-- Claim C4 witness: the four per-iteration facts at iteration 0 of a
concrete one-iteration run. -/
theorem C4_witness :
    ((resEvents (train_estimator val7 "cuda:4" demoSched demoToRho demoCP demoDP mpSep
       op1 none demoSt0)).getD 0 default).rhoUsed =
      (demoToRho demoDP.dim (demoSched op1.iterations)).getD 0 0 ∧
    ((resEvents (train_estimator val7 "cuda:4" demoSched demoToRho demoCP demoDP mpSep
       op1 none demoSt0)).getD 0 default).sampleIdUsed = demoSt0.nextSampleId + 0 ∧
    ((resEvents (train_estimator val7 "cuda:4" demoSched demoToRho demoCP demoDP mpSep
       op1 none demoSt0)).getD 0 default).loss =
      -(((resEvents (train_estimator val7 "cuda:4" demoSched demoToRho demoCP demoDP
        mpSep op1 none demoSt0)).getD 0 default).estimate) ∧
    (resEstimates (train_estimator val7 "cuda:4" demoSched demoToRho demoCP demoDP
      mpSep op1 none demoSt0)).getD 0 0 =
      ((resEvents (train_estimator val7 "cuda:4" demoSched demoToRho demoCP demoDP
        mpSep op1 none demoSt0)).getD 0 default).estimate := by
  exact C4_per_iteration_data_flow val7 "cuda:4" demoSched demoToRho demoCP demoDP
    mpSep op1 none demoSt0 "separable" 0 rfl (by decide) (by decide) (by decide)
    (by decide) (by decide)

/-- Claim C5: a completed `train_estimator` run returns exactly one estimate
per iteration — the trace length equals the configured iteration count, with
no gaps — and a failing iteration aborts the whole run: with an unknown
estimator name every run of at least one iteration ends in the propagated
`KeyError` instead of a shortened trace. -/
theorem C5_trace_length_and_failure_propagation :
    (∀ (estVal : EstCall → Int) (moduleDevice : String)
       (mi_schedule : Nat → List Int) (mi_to_rho : Nat → List Int → List Int)
       (cp : CriticParams) (dp : DataParams) (mp : MiParams) (op : OptParams)
       (clip : Option Int) (st0 : WorldState) (es : List Int) (evs : List StepEvent)
       (st' : WorldState),
       train_estimator estVal moduleDevice mi_schedule mi_to_rho cp dp mp op clip st0 =
         .ok (es, evs, st') →
       es.length = op.iterations ∧ evs.length = op.iterations) ∧
    (∀ (estVal : EstCall → Int) (moduleDevice : String)
       (mi_schedule : Nat → List Int) (mi_to_rho : Nat → List Int → List Int)
       (cp : CriticParams) (dp : DataParams) (mp : MiParams) (op : OptParams)
       (clip : Option Int) (st0 : WorldState) (ck : String),
       mp.critic = some ck → CRITICS_hasKey ck = true →
       BASELINES_hasKey (mp.baseline.getD "constant") = true →
       ESTIMATORS_hasKey mp.estimator = false →
       1 ≤ op.iterations →
       0 < (mi_to_rho dp.dim (mi_schedule op.iterations)).length →
       train_estimator estVal moduleDevice mi_schedule mi_to_rho cp dp mp op clip st0 =
         .error (.keyError mp.estimator)) := by
  constructor
  · intro estVal moduleDevice mi_schedule mi_to_rho cp dp mp op clip st0 es evs st' h
    obtain ⟨su, hsu, hloop⟩ := train_estimator_ok_split h
    have hlen := train_loop_ok_length estVal moduleDevice su.critic su.baseline dp mp
      clip (mi_to_rho dp.dim (mi_schedule op.iterations)) op.iterations 0 su.st [] []
      es evs st' hloop
    simpa using hlen
  · intro estVal moduleDevice mi_schedule mi_to_rho cp dp mp op clip st0 ck hmp hck hbk
      hest hit hlen
    have hck2 : CRITICS_hasKey (mp.critic.getD "separable") = true := by
      rw [hmp]
      exact hck
    rw [train_estimator_of_setup_ok (setup_phase_ok hck2 hbk)]
    exact train_loop_first_err hit (List.getElem?_eq_getElem hlen)
      (train_step_bad_estimator hmp (hasKey_ne_conditional hck) hest)

/-- Claim C5 witness: a concrete one-iteration run yields a length-one trace,
and the same configuration with the unknown estimator name "bogus" aborts
with the propagated `KeyError`. -/
theorem C5_witness :
    (([7] : List Int).length = op1.iterations ∧
      ([⟨0, false, .pynone, 0, 0, "cuda:4", -7, 7, true, false⟩] :
        List StepEvent).length = op1.iterations) ∧
    train_estimator val7 "cuda:4" demoSched demoToRho demoCP demoDP
      ⟨"bogus", some "separable", some "constant", none⟩ op1 none demoSt0 =
      .error (.keyError "bogus") := by
  constructor
  · exact C5_trace_length_and_failure_propagation.1 val7 "cuda:4" demoSched demoToRho
      demoCP demoDP mpSep op1 none demoSt0 [7]
      [⟨0, false, .pynone, 0, 0, "cuda:4", -7, 7, true, false⟩] ⟨1, 1, 1, 0⟩ rfl
  · exact C5_trace_length_and_failure_propagation.2 val7 "cuda:4" demoSched demoToRho
      demoCP demoDP ⟨"bogus", some "separable", some "constant", none⟩ op1 none demoSt0
      "separable" rfl (by decide) (by decide) (by decide) (by decide) (by decide)

/-- Claim C6: for every valid configuration and every estimator-value
function — that is, for every sequence of estimate values — the loop
completes and runs exactly the configured number of iterations: one event and
one estimate per iteration, with termination a pure counter condition (no
early stopping, no convergence detection appears anywhere in the loop). -/
theorem C6_fixed_count_termination (estVal : EstCall → Int) (moduleDevice : String)
    (mi_schedule : Nat → List Int) (mi_to_rho : Nat → List Int → List Int)
    (cp : CriticParams) (dp : DataParams) (mp : MiParams) (op : OptParams)
    (clip : Option Int) (st0 : WorldState) (ck : String)
    (hmp : mp.critic = some ck) (hck : CRITICS_hasKey ck = true)
    (hbk : BASELINES_hasKey (mp.baseline.getD "constant") = true)
    (hest : ESTIMATORS_hasKey mp.estimator = true)
    (hlen : op.iterations ≤ (mi_to_rho dp.dim (mi_schedule op.iterations)).length) :
    train_estimator estVal moduleDevice mi_schedule mi_to_rho cp dp mp op clip st0 =
      .ok (runOf estVal moduleDevice mi_schedule mi_to_rho cp dp mp op clip st0) ∧
    (runOf estVal moduleDevice mi_schedule mi_to_rho cp dp mp op clip st0).1.length =
      op.iterations ∧
    (runOf estVal moduleDevice mi_schedule mi_to_rho cp dp mp op clip st0).2.1.length =
      op.iterations := by
  refine ⟨train_estimator_ok_eq estVal moduleDevice mi_schedule mi_to_rho cp dp mp op
    clip st0 ck hmp hck hbk hest hlen, ?_, ?_⟩ <;> simp [runOf]

/-- Claim C6 witness: a concrete two-iteration run completes with exactly two
estimates and two events. -/
theorem C6_witness :
    train_estimator val7 "cuda:4" demoSched demoToRho demoCP demoDP mpSep op2 none
      demoSt0 =
      .ok (runOf val7 "cuda:4" demoSched demoToRho demoCP demoDP mpSep op2 none
        demoSt0) ∧
    (runOf val7 "cuda:4" demoSched demoToRho demoCP demoDP mpSep op2 none
      demoSt0).1.length = op2.iterations ∧
    (runOf val7 "cuda:4" demoSched demoToRho demoCP demoDP mpSep op2 none
      demoSt0).2.1.length = op2.iterations := by
  exact C6_fixed_count_termination val7 "cuda:4" demoSched demoToRho demoCP demoDP
    mpSep op2 none demoSt0 "separable" rfl (by decide) (by decide) (by decide)
    (by decide)

/-- Claim C7: the critic and baseline parameter sets are optimized
independently — a critic optimizer step changes only the critic's parameter
version and a baseline step only the baseline's — a baseline optimizer exists
exactly when the baseline is a learned network (`nn.Module`), and in every
completed run every iteration steps the critic optimizer while the baseline
optimizer steps exactly when the baseline is learned, so after `n` iterations
the critic parameters have seen `n` updates and the baseline parameters `n`
or none. -/
theorem C7_independent_parameter_updates :
    (∀ st : WorldState,
       (optStepCrit st).critVer = st.critVer + 1 ∧
       (optStepCrit st).baseVer = st.baseVer ∧
       (optStepCrit st).nextId = st.nextId ∧
       (optStepCrit st).nextSampleId = st.nextSampleId ∧
       (optStepBase st).baseVer = st.baseVer + 1 ∧
       (optStepBase st).critVer = st.critVer ∧
       (optStepBase st).nextId = st.nextId ∧
       (optStepBase st).nextSampleId = st.nextSampleId) ∧
    (∀ (moduleDevice : String) (cp : CriticParams) (mp : MiParams) (st0 : WorldState)
       (su : SetupResult),
       setup_phase moduleDevice cp mp st0 = .ok su →
       su.hasOptBase = su.baseline.isModule) ∧
    (∀ (estVal : EstCall → Int) (moduleDevice : String)
       (mi_schedule : Nat → List Int) (mi_to_rho : Nat → List Int → List Int)
       (cp : CriticParams) (dp : DataParams) (mp : MiParams) (op : OptParams)
       (clip : Option Int) (st0 : WorldState) (su : SetupResult) (es : List Int)
       (evs : List StepEvent) (st' : WorldState),
       setup_phase moduleDevice cp mp st0 = .ok su →
       train_estimator estVal moduleDevice mi_schedule mi_to_rho cp dp mp op clip st0 =
         .ok (es, evs, st') →
       evs.all (fun e => e.critStepped &&
         (e.baseStepped == su.baseline.isModule)) = true ∧
       st'.critVer = su.st.critVer + op.iterations ∧
       st'.baseVer = su.st.baseVer +
         (if su.baseline.isModule then op.iterations else 0)) := by
  refine ⟨?_, ?_, ?_⟩
  · intro st
    exact ⟨rfl, rfl, rfl, rfl, rfl, rfl, rfl, rfl⟩
  · intro moduleDevice cp mp st0 su hsu
    obtain ⟨-, -, hsu2⟩ := setup_phase_ok_keys hsu
    subst hsu2
    simp [setupOf]
  · intro estVal moduleDevice mi_schedule mi_to_rho cp dp mp op clip st0 su es evs st'
      hsu hrun
    obtain ⟨su', hsu', hloop⟩ := train_estimator_ok_split hrun
    rw [hsu] at hsu'
    have heq : su = su' := Except.ok.inj hsu'
    subst heq
    have hstate := train_loop_ok_state estVal moduleDevice su.critic su.baseline dp mp
      clip (mi_to_rho dp.dim (mi_schedule op.iterations)) op.iterations 0 su.st [] []
      es evs st' hloop
    refine ⟨?_, hstate.2.2.1, hstate.2.2.2⟩
    refine List.all_eq_true.mpr ?_
    refine train_loop_ok_events estVal moduleDevice su.critic su.baseline dp mp clip
      (mi_to_rho dp.dim (mi_schedule op.iterations))
      (fun e => (e.critStepped && (e.baseStepped == su.baseline.isModule)) = true)
      ?_ op.iterations 0 su.st [] [] es evs st' hloop (by simp)
    intro rho st mi ev st2 hstep
    obtain ⟨-, -, -, -, -, -, h7, h8, -⟩ := train_step_ok_shape hstep
    simp [h7, h8]

/-- Claim C7 witness: the frame facts at a concrete world state, the
optimizer-existence fact for the learned baseline, and the per-run counts for
a concrete one-iteration run with the learned baseline. -/
theorem C7_witness :
    ((optStepCrit ⟨5, 6, 7, 8⟩).critVer = (⟨5, 6, 7, 8⟩ : WorldState).critVer + 1 ∧
     (optStepCrit ⟨5, 6, 7, 8⟩).baseVer = (⟨5, 6, 7, 8⟩ : WorldState).baseVer ∧
     (optStepCrit ⟨5, 6, 7, 8⟩).nextId = (⟨5, 6, 7, 8⟩ : WorldState).nextId ∧
     (optStepCrit ⟨5, 6, 7, 8⟩).nextSampleId = (⟨5, 6, 7, 8⟩ : WorldState).nextSampleId ∧
     (optStepBase ⟨5, 6, 7, 8⟩).baseVer = (⟨5, 6, 7, 8⟩ : WorldState).baseVer + 1 ∧
     (optStepBase ⟨5, 6, 7, 8⟩).critVer = (⟨5, 6, 7, 8⟩ : WorldState).critVer ∧
     (optStepBase ⟨5, 6, 7, 8⟩).nextId = (⟨5, 6, 7, 8⟩ : WorldState).nextId ∧
     (optStepBase ⟨5, 6, 7, 8⟩).nextSampleId = (⟨5, 6, 7, 8⟩ : WorldState).nextSampleId) ∧
    (setupOf "cuda:4" demoCP mpUnnorm demoSt0).hasOptBase =
      (setupOf "cuda:4" demoCP mpUnnorm demoSt0).baseline.isModule ∧
    (([⟨0, false, .module 1 "cuda:4", 0, 0, "cuda:4", -7, 7, true, true⟩] :
        List StepEvent).all
       (fun e => e.critStepped &&
         (e.baseStepped == (setupOf "cuda:4" demoCP mpUnnorm demoSt0).baseline.isModule)) =
       true ∧
     (⟨2, 1, 1, 1⟩ : WorldState).critVer =
       (setupOf "cuda:4" demoCP mpUnnorm demoSt0).st.critVer + op1.iterations ∧
     (⟨2, 1, 1, 1⟩ : WorldState).baseVer =
       (setupOf "cuda:4" demoCP mpUnnorm demoSt0).st.baseVer +
         (if (setupOf "cuda:4" demoCP mpUnnorm demoSt0).baseline.isModule then
           op1.iterations else 0)) := by
  refine ⟨C7_independent_parameter_updates.1 ⟨5, 6, 7, 8⟩,
    C7_independent_parameter_updates.2.1 "cuda:4" demoCP mpUnnorm demoSt0
      (setupOf "cuda:4" demoCP mpUnnorm demoSt0)
      (setup_phase_ok (by decide) (by decide)),
    C7_independent_parameter_updates.2.2 val7 "cuda:4" demoSched demoToRho demoCP
      demoDP mpUnnorm op1 none demoSt0 (setupOf "cuda:4" demoCP mpUnnorm demoSt0) [7]
      [⟨0, false, .module 1 "cuda:4", 0, 0, "cuda:4", -7, 7, true, true⟩] ⟨2, 1, 1, 1⟩
      (setup_phase_ok (by decide) (by decide)) rfl⟩

/-- Claim C8: the `CRITICS` dictionary has exactly the keys `separable` and
`concat`; every `train_estimator` call with `mi_params['critic'] =
'conditional'` fails with the missing-key error already at the initial critic
construction, before any training iteration; and in every completed run no
event ever has a freshly rebuilt critic — the per-iteration conditional
rebuild branch of `train_step` is unreachable. -/
theorem C8_conditional_branch_unreachable :
    (∀ k : String, CRITICS_hasKey k = true ↔ (k = "separable" ∨ k = "concat")) ∧
    (∀ (estVal : EstCall → Int) (moduleDevice : String)
       (mi_schedule : Nat → List Int) (mi_to_rho : Nat → List Int → List Int)
       (cp : CriticParams) (dp : DataParams) (mp : MiParams) (op : OptParams)
       (clip : Option Int) (st0 : WorldState),
       mp.critic = some "conditional" →
       setup_phase moduleDevice cp mp st0 = .error (.keyError "conditional") ∧
       train_estimator estVal moduleDevice mi_schedule mi_to_rho cp dp mp op clip st0 =
         .error (.keyError "conditional")) ∧
    (∀ (estVal : EstCall → Int) (moduleDevice : String)
       (mi_schedule : Nat → List Int) (mi_to_rho : Nat → List Int → List Int)
       (cp : CriticParams) (dp : DataParams) (mp : MiParams) (op : OptParams)
       (clip : Option Int) (st0 : WorldState),
       (resEvents (train_estimator estVal moduleDevice mi_schedule mi_to_rho cp dp mp
         op clip st0)).all (fun e => !e.criticFresh) = true) := by
  refine ⟨CRITICS_hasKey_iff, ?_, ?_⟩
  · intro estVal moduleDevice mi_schedule mi_to_rho cp dp mp op clip st0 hmp
    have hse : setup_phase moduleDevice cp mp st0 = .error (.keyError "conditional") :=
      setup_phase_err_critic hmp (by decide)
    exact ⟨hse, train_estimator_of_setup_err hse⟩
  · intro estVal moduleDevice mi_schedule mi_to_rho cp dp mp op clip st0
    refine train_estimator_events_all estVal moduleDevice mi_schedule mi_to_rho cp dp
      mp op clip st0 _ ?_
    intro su hsu rho st mi ev st' hstep
    obtain ⟨h1, -⟩ := train_step_ok_shape hstep
    simp [h1]

/-- Claim C8 witness: the key-set fact at "conditional", the immediate
missing-key abort of a concrete conditional-critic run, and absence of any
rebuilt critic in a concrete completed run. -/
theorem C8_witness :
    (CRITICS_hasKey "conditional" = true ↔
      ("conditional" = "separable" ∨ "conditional" = "concat")) ∧
    (setup_phase "cuda:4" demoCP ⟨"nwj", some "conditional", some "constant", none⟩
       demoSt0 = .error (.keyError "conditional") ∧
     train_estimator val7 "cuda:4" demoSched demoToRho demoCP demoDP
       ⟨"nwj", some "conditional", some "constant", none⟩ op1 none demoSt0 =
       .error (.keyError "conditional")) ∧
    (resEvents (train_estimator val7 "cuda:4" demoSched demoToRho demoCP demoDP mpSep
      op2 none demoSt0)).all (fun e => !e.criticFresh) = true := by
  exact ⟨C8_conditional_branch_unreachable.1 "conditional",
    C8_conditional_branch_unreachable.2.1 val7 "cuda:4" demoSched demoToRho demoCP
      demoDP ⟨"nwj", some "conditional", some "constant", none⟩ op1 none demoSt0 rfl,
    C8_conditional_branch_unreachable.2.2 val7 "cuda:4" demoSched demoToRho demoCP
      demoDP mpSep op2 none demoSt0⟩

/-- Claim C9: when `mi_params` has no `'critic'` key, the initial critic
construction silently defaults to `'separable'` and succeeds, but the
`mi_params['critic']` lookup inside `train_step` raises the missing-key error
in the first iteration, so any run with at least one iteration aborts with
that error and never returns an estimate trace. -/
theorem C9_missing_critic_key_fails_in_first_step (estVal : EstCall → Int)
    (moduleDevice : String) (mi_schedule : Nat → List Int)
    (mi_to_rho : Nat → List Int → List Int) (cp : CriticParams) (dp : DataParams)
    (mp : MiParams) (op : OptParams) (clip : Option Int) (st0 : WorldState)
    (hmp : mp.critic = none)
    (hbk : BASELINES_hasKey (mp.baseline.getD "constant") = true) :
    (setup_phase moduleDevice cp mp st0 = .ok (setupOf moduleDevice cp mp st0) ∧
     (setupOf moduleDevice cp mp st0).critic.kind = "separable") ∧
    (1 ≤ op.iterations → 0 < (mi_to_rho dp.dim (mi_schedule op.iterations)).length →
     train_estimator estVal moduleDevice mi_schedule mi_to_rho cp dp mp op clip st0 =
       .error (.keyError "critic")) := by
  have hck2 : CRITICS_hasKey (mp.critic.getD "separable") = true := by
    rw [hmp]
    decide
  refine ⟨⟨setup_phase_ok hck2 hbk, ?_⟩, ?_⟩
  · simp [setupOf, hmp]
  · intro hit hlen
    rw [train_estimator_of_setup_ok (setup_phase_ok hck2 hbk)]
    exact train_loop_first_err hit (List.getElem?_eq_getElem hlen)
      (train_step_none_error hmp)

/-- Claim C9 witness: a concrete one-iteration run with no `'critic'` key —
set-up succeeds with a separable critic, the run aborts with the missing-key
error. -/
theorem C9_witness :
    (setup_phase "cuda:4" demoCP mpNoCritic demoSt0 =
       .ok (setupOf "cuda:4" demoCP mpNoCritic demoSt0) ∧
     (setupOf "cuda:4" demoCP mpNoCritic demoSt0).critic.kind = "separable") ∧
    train_estimator val7 "cuda:4" demoSched demoToRho demoCP demoDP mpNoCritic op1 none
      demoSt0 = .error (.keyError "critic") := by
  have h := C9_missing_critic_key_fails_in_first_step val7 "cuda:4" demoSched demoToRho
    demoCP demoDP mpNoCritic op1 none demoSt0 rfl (by decide)
  exact ⟨h.1, h.2 (by decide) (by decide)⟩

/-- Claim C10: the baseline object is constructed exactly once per
`train_estimator` call — the allocation counter does not move during the
loop — and every iteration's event passes that same set-up baseline object to
the estimation call. -/
theorem C10_baseline_constructed_once (estVal : EstCall → Int) (moduleDevice : String)
    (mi_schedule : Nat → List Int) (mi_to_rho : Nat → List Int → List Int)
    (cp : CriticParams) (dp : DataParams) (mp : MiParams) (op : OptParams)
    (clip : Option Int) (st0 : WorldState) (su : SetupResult) (es : List Int)
    (evs : List StepEvent) (st' : WorldState)
    (hsu : setup_phase moduleDevice cp mp st0 = .ok su)
    (hrun : train_estimator estVal moduleDevice mi_schedule mi_to_rho cp dp mp op clip
      st0 = .ok (es, evs, st')) :
    evs.all (fun e => e.baselineUsed == su.baseline) = true ∧
    st'.nextId = su.st.nextId := by
  obtain ⟨su', hsu', hloop⟩ := train_estimator_ok_split hrun
  rw [hsu] at hsu'
  have heq : su = su' := Except.ok.inj hsu'
  subst heq
  constructor
  · refine List.all_eq_true.mpr ?_
    refine train_loop_ok_events estVal moduleDevice su.critic su.baseline dp mp clip
      (mi_to_rho dp.dim (mi_schedule op.iterations))
      (fun e => (e.baselineUsed == su.baseline) = true) ?_ op.iterations 0 su.st [] []
      es evs st' hloop (by simp)
    intro rho st mi ev st2 hstep
    obtain ⟨-, -, h3, -⟩ := train_step_ok_shape hstep
    simp [h3]
  · exact (train_loop_ok_state estVal moduleDevice su.critic su.baseline dp mp clip
      (mi_to_rho dp.dim (mi_schedule op.iterations)) op.iterations 0 su.st [] [] es
      evs st' hloop).1

/-- Claim C10 witness: in a concrete two-iteration run with the closed-form
gaussian baseline, both events carry the set-up baseline object and the
allocation counter is unchanged across the loop. -/
theorem C10_witness :
    ([⟨0, false, .fn "log_prob_gaussian", 0, 0, "cuda:4", -7, 7, true, false⟩,
      ⟨0, false, .fn "log_prob_gaussian", 1, 1, "cuda:4", -7, 7, true, false⟩] :
      List StepEvent).all
      (fun e => e.baselineUsed == (setupOf "cuda:4" demoCP mpGauss demoSt0).baseline) =
      true ∧
    (⟨1, 2, 2, 0⟩ : WorldState).nextId =
      (setupOf "cuda:4" demoCP mpGauss demoSt0).st.nextId := by
  exact C10_baseline_constructed_once val7 "cuda:4" demoSched demoToRho demoCP demoDP
    mpGauss op2 (some 5) demoSt0 (setupOf "cuda:4" demoCP mpGauss demoSt0) [7, 7]
    [⟨0, false, .fn "log_prob_gaussian", 0, 0, "cuda:4", -7, 7, true, false⟩,
     ⟨0, false, .fn "log_prob_gaussian", 1, 1, "cuda:4", -7, 7, true, false⟩]
    ⟨1, 2, 2, 0⟩ (setup_phase_ok (by decide) (by decide)) rfl
